import Mathlib

/-!
# Verification of the LanguageTranslatorV3 request-shaping layer

Shallow embedding of `src/language-translator/v3.ts` (IBM Watson Language
Translator node SDK client).  Every operation of the service façade is
translated into a pure Lean function producing either a validation error or
the `parameters` record the source hands to the transport collaborator
(`this.createRequest`).  The external collaborator pieces that are not part
of `src/` (the core library's `getMissingParams`, the request builder inside
`createRequest`, and `getSdkHeaders` from `lib/common`) are modelled from the
specification and marked as such in their doc comments.

JavaScript objects that the source builds field-by-field are embedded as
association lists of string keys; `undefined` is a first-class value
(`JsValue.undef`) because the source places `undefined` entries into body and
query objects and the downstream builder drops them.
-/

set_option autoImplicit false

namespace LangTransV3

/-- A JavaScript runtime value, restricted to the shapes this client puts in
parameter bags, bodies and query objects: `undefined`, strings, booleans,
arrays of strings and opaque binary payloads (TMX file uploads). -/
inductive JsValue where
  | undef
  | str (s : String)
  | bool (b : Bool)
  | strList (l : List String)
  | file (payload : String)
  deriving DecidableEq

/-- A flat string-to-string JavaScript object (headers, assembled query
strings), embedded as an association list in property-insertion order. -/
abbrev StrMap := List (String × String)

/-- First-match lookup on a flat string map (JavaScript property access). -/
def lookupS (m : StrMap) (k : String) : Option String :=
  (m.find? (fun p => p.1 = k)).map (fun p => p.2)

/-- Lookup in a JavaScript object with arbitrary values. -/
def lookupJs (m : List (String × JsValue)) (k : String) : Option JsValue :=
  (m.find? (fun p => p.1 = k)).map (fun p => p.2)

/-- Left-biased choice on optional values: the first defined one wins.  Used
to state key-by-key header precedence. -/
def orFirst (x y : Option String) : Option String :=
  match x with
  | some v => some v
  | none => y

/-- Setting one property of a flat string object: if the key is present its
value is replaced in place (JavaScript keeps the original insertion slot),
otherwise the pair is appended. -/
def setEntry (m : StrMap) (k v : String) : StrMap :=
  if m.any (fun p => p.1 = k) then
    m.map (fun p => if p.1 = k then (k, v) else p)
  else
    m ++ [(k, v)]

/-- The merge the `extend` package performs on flat string objects: every
property of `overlay` is written into `base` in order, later writes winning.
For the flat string maps this client merges (headers, query defaults) the
`deep` flag of `extend` makes no difference. -/
def hmerge (base overlay : StrMap) : StrMap :=
  overlay.foldl (fun acc p => setEntry acc p.1 p.2) base

/-- A JavaScript object cannot bind the same property name twice; maps that
come from real objects have pairwise-distinct keys. -/
def NodupKeys (m : StrMap) : Prop := (m.map Prod.fst).Nodup

instance (m : StrMap) : Decidable (NodupKeys m) := by
  unfold NodupKeys; infer_instance

theorem lookupS_nil (k : String) : lookupS [] k = none := rfl

theorem lookupS_cons (p : String × String) (m : StrMap) (k : String) :
    lookupS (p :: m) k = if p.1 = k then some p.2 else lookupS m k := by
  by_cases h : p.1 = k <;> simp [lookupS, List.find?, h]

theorem lookupS_eq_none_of_any_false (m : StrMap) (k : String)
    (h : m.any (fun p => p.1 = k) = false) : lookupS m k = none := by
  induction m with
  | nil => rfl
  | cons p rest ih =>
    simp only [List.any_cons, Bool.or_eq_false_iff, decide_eq_false_iff_not] at h
    rw [lookupS_cons, if_neg h.1]
    exact ih h.2

theorem lookupS_replace (m : StrMap) (k v k' : String) :
    lookupS (m.map (fun p => if p.1 = k then (k, v) else p)) k' =
      if k' = k then (if m.any (fun p => p.1 = k) then some v else none)
      else lookupS m k' := by
  induction m with
  | nil => by_cases h : k' = k <;> simp [lookupS, h]
  | cons p rest ih =>
    rw [List.map_cons, lookupS_cons, lookupS_cons, List.any_cons]
    by_cases hp : p.1 = k
    · by_cases hk : k' = k
      · subst hk; simp [hp, ih]
      · have h1 : ¬ (p.1 = k') := by rw [hp]; exact fun h => hk h.symm
        have h2 : ¬ (k = k') := fun h => hk h.symm
        simp [hp, hk, h1, h2, ih]
    · by_cases hk : k' = k
      · subst hk
        have h2 : decide (p.1 = k') = false := decide_eq_false hp
        simp only [if_neg hp, ih, eq_self_iff_true, if_true, h2, Bool.false_or]
      · by_cases hpk : p.1 = k'
        · simp [hp, hpk, hk, ih]
        · simp [hp, hpk, hk, ih]

theorem lookupS_append_single (m : StrMap) (k v k' : String) :
    lookupS (m ++ [(k, v)]) k' =
      orFirst (lookupS m k') (if k' = k then some v else none) := by
  induction m with
  | nil =>
    by_cases h : k' = k
    · subst h; simp [lookupS, List.find?, orFirst]
    · have h' : ¬ (k = k') := fun hh => h hh.symm
      simp [lookupS, List.find?, h, h', orFirst]
  | cons p rest ih =>
    rw [List.cons_append, lookupS_cons, lookupS_cons]
    by_cases hp : p.1 = k'
    · simp [hp, orFirst]
    · simp only [if_neg hp]
      exact ih

theorem lookupS_setEntry (m : StrMap) (k v k' : String) :
    lookupS (setEntry m k v) k' = if k' = k then some v else lookupS m k' := by
  unfold setEntry
  by_cases hmem : m.any (fun p => p.1 = k)
  · rw [if_pos hmem, lookupS_replace, hmem]
    by_cases hk : k' = k <;> simp [hk]
  · have hm : m.any (fun p => p.1 = k) = false := by
      rw [← Bool.not_eq_true]; exact hmem
    rw [if_neg hmem, lookupS_append_single]
    by_cases hk : k' = k
    · subst hk
      rw [lookupS_eq_none_of_any_false m k' hm]
      simp [orFirst]
    · simp only [if_neg hk]
      cases lookupS m k' <;> simp [orFirst]

theorem not_mem_keys_of_any_false (m : StrMap) (k : String)
    (h : m.any (fun p => p.1 = k) = false) : k ∉ m.map Prod.fst := by
  intro hmem
  rcases List.mem_map.mp hmem with ⟨p, hp, hk⟩
  have h2 := List.any_eq_false.mp h p hp
  simp only [decide_eq_true_eq] at h2
  exact h2 hk

theorem keys_setEntry_of_any_true (m : StrMap) (k v : String)
    (h : m.any (fun p => p.1 = k)) :
    (setEntry m k v).map Prod.fst = m.map Prod.fst := by
  unfold setEntry
  rw [if_pos h, List.map_map]
  apply List.map_congr_left
  intro p _
  by_cases hp : p.1 = k <;> simp [hp]

theorem nodupKeys_setEntry (m : StrMap) (k v : String) (h : NodupKeys m) :
    NodupKeys (setEntry m k v) := by
  unfold NodupKeys
  by_cases hmem : m.any (fun p => p.1 = k)
  · rw [keys_setEntry_of_any_true m k v hmem]; exact h
  · have hm : m.any (fun p => p.1 = k) = false := by
      rw [← Bool.not_eq_true]; exact hmem
    unfold setEntry
    rw [if_neg hmem, List.map_append]
    simp only [List.map_cons, List.map_nil]
    rw [List.nodup_append]
    refine ⟨h, List.nodup_singleton k, ?_⟩
    intro a ha hb
    rcases List.mem_singleton.mp hb with rfl
    exact not_mem_keys_of_any_false m a hm ha

theorem nodupKeys_hmerge (a b : StrMap) (h : NodupKeys a) :
    NodupKeys (hmerge a b) := by
  induction b generalizing a with
  | nil => exact h
  | cons p rest ih => exact ih (setEntry a p.1 p.2) (nodupKeys_setEntry a p.1 p.2 h)

theorem lookupS_hmerge (a b : StrMap) (hb : NodupKeys b) (k : String) :
    lookupS (hmerge a b) k = orFirst (lookupS b k) (lookupS a k) := by
  induction b generalizing a with
  | nil => simp [hmerge, lookupS, orFirst]
  | cons p rest ih =>
    have hstep : hmerge a (p :: rest) = hmerge (setEntry a p.1 p.2) rest := rfl
    have hnd : NodupKeys rest := by
      unfold NodupKeys at hb ⊢
      exact (List.nodup_cons.mp hb).2
    have hnotin : p.1 ∉ rest.map Prod.fst := (List.nodup_cons.mp hb).1
    rw [hstep, ih (setEntry a p.1 p.2) hnd, lookupS_setEntry]
    by_cases hk : k = p.1
    · have hnone : lookupS rest k = none := by
        apply lookupS_eq_none_of_any_false
        rw [List.any_eq_false]
        intro x hx
        simp only [decide_eq_true_eq]
        intro hxk
        exact hnotin (List.mem_map.mpr ⟨x, hx, hxk.trans hk⟩)
      rw [if_pos hk, hnone, lookupS_cons, if_pos hk.symm]
      simp [orFirst]
    · rw [if_neg hk, lookupS_cons]
      have hp : ¬ (p.1 = k) := fun h => hk h.symm
      rw [if_neg hp]

/-! ## Collaborator pieces modelled from the spec -/

/-- Modelled from the spec: `getSdkHeaders` lives in `lib/common` of this
repository, which is not under `src/`.  Spec §4.2(b): the diagnostic layer is
the operation-identifying headers carrying service name, service version and
operation name. -/
def getSdkHeaders (serviceName serviceVersion operationId : String) : StrMap :=
  [("X-IBMCloud-SDK-Analytics",
    "service_name=" ++ serviceName ++ ";service_version=" ++ serviceVersion
      ++ ";operation_id=" ++ operationId)]

/-- Whether a value counts as empty for parameter validation (spec §4.1: a
name is missing if "absent from the mapping or bound to an empty/undefined
value"). -/
def JsValue.isEmptyVal : JsValue → Bool
  | .undef => true
  | .str s => s.isEmpty
  | .strList l => l.isEmpty
  | .bool _ => false
  | .file _ => false

/-- Modelled from the spec: `getMissingParams` comes from the external
`ibm-cloud-sdk-core` collaborator (spec §1 calls it the `missingParams`
check).  Spec §4.1: it returns the required names that are absent or bound to
an empty/undefined value, or an empty result on success, and never throws. -/
def getMissingParams (params : List (String × JsValue)) (required : List String) :
    Option (List String) :=
  let missing := required.filter (fun r =>
    match lookupJs params r with
    | Option.none => true
    | Option.some v => v.isEmptyVal)
  if missing.isEmpty then Option.none else Option.some missing

/-! ## The request parameters each operation hands to `createRequest` -/

/-- HTTP method of an operation. -/
inductive Method where
  | get
  | post
  | delete
  deriving DecidableEq

/-- One declared multipart form field as the source builds it: the raw
parameter value under `data` (possibly `undefined`) plus an explicit content
type. -/
structure FormDataEntry where
  data : JsValue
  contentType : String
  deriving DecidableEq

/-- The body the source places in `parameters.options`: absent, a JSON
object built field-by-field (possibly with `undefined` entries), the raw
value of a plain-text parameter, or multipart form data. -/
inductive BodySpec where
  | none
  | json (fields : List (String × JsValue))
  | raw (v : JsValue)
  | form (fields : List (String × FormDataEntry))
  deriving DecidableEq

/-- The `parameters` record each façade method passes to
`this.createRequest`: the per-operation `options` object (url, method, body,
query object, path substitutions) plus the parts of the merged
`defaultOptions` that shape the outgoing request (the fully merged header
object and the persistent query defaults holding the version tag). -/
structure RequestParameters where
  url : String
  method : Method
  body : BodySpec
  qs : List (String × JsValue)
  path : List (String × JsValue)
  headers : StrMap
  defaultQs : StrMap
  deriving DecidableEq

/-- Outcome of the shared validation/build phase of an operation: either the
completion handler is invoked immediately with a validation error naming the
missing parameters (and the transport collaborator is never contacted), or
the assembled request parameters are handed to `createRequest`. -/
inductive OpResult where
  | validationError (missing : List String)
  | request (rp : RequestParameters)
  deriving DecidableEq

/-! ## Construction -/

/-- Constructor options, restricted to the fields this layer reads; the
credential fields are owned by the external collaborator. -/
structure Options where
  version : Option String
  url : Option String
  headers : StrMap
  deriving DecidableEq

/-- The immutable façade state after construction, i.e. `this._options` as
the operations read it: the mandatory version tag (stored by the constructor
under `this._options.qs.version`), the default headers and the base url. -/
structure Client where
  version : String
  defaultHeaders : StrMap
  url : String
  deriving DecidableEq

/-- `LanguageTranslatorV3.URL` (src line 29). -/
def URL : String := "https://gateway.watsonplatform.net/language-translator/api"

/-- The `LanguageTranslatorV3` constructor (src lines 51-58): after the
external base class folds `options` into `this._options` (with `qs`
initialised empty), construction throws `Error('Argument error: version was
not specified')` when `options.version` is `undefined`, and otherwise stores
the version tag as the `version` entry of the persistent query defaults. -/
def construct (o : Options) : Except String Client :=
  match o.version with
  | Option.none => Except.error "Argument error: version was not specified"
  | Option.some v =>
      Except.ok { version := v, defaultHeaders := o.headers, url := o.url.getD URL }

/-- `undefined`-aware injection of an optional parameter value.  The source
snapshots params with `extend({}, params)`, which drops `undefined`-valued
properties, so an absent and an `undefined` field coincide in the snapshot
and are both embedded as `Option.none`. -/
def jsOpt {α : Type} (f : α → JsValue) : Option α → JsValue
  | Option.none => JsValue.undef
  | Option.some a => f a

/-- The property a defined optional parameter contributes to the snapshot
object, and nothing otherwise. -/
def optEntry {α : Type} (k : String) (f : α → JsValue) : Option α → List (String × JsValue)
  | Option.none => []
  | Option.some a => [(k, f a)]

/-- The header object `defaultOptions.headers` after the merge the source
performs in every operation:
`extend(true, {}, this._options, { headers: extend(true, sdkHeaders, fixed,
_params.headers) })`, i.e. the construction-time default headers overlaid
key-by-key with the diagnostic headers, the operation's fixed
`Accept`/`Content-Type` object and the caller-supplied headers, in that
order. -/
def mergedHeaders (c : Client) (sdk fixed caller : StrMap) : StrMap :=
  hmerge c.defaultHeaders (hmerge (hmerge sdk fixed) caller)

/-! ## Operation parameter records

The source snapshots the caller's params with `extend({}, params)` before any
other step; since that copy drops `undefined`-valued properties, each record
below is the snapshot, with `Option.none` standing for an absent-or-undefined
field.  `headers` defaults to the empty object: merging `undefined` caller
headers and merging `{}` agree under `extend`. -/

/-- Parameters of `translate` (src interface `TranslateParams`). -/
structure TranslateParams where
  text : Option (List String)
  model_id : Option String
  source : Option String
  target : Option String
  headers : StrMap
  return_response : Option Bool
  deriving DecidableEq

/-- The snapshot as the dynamic object `getMissingParams` inspects. -/
def TranslateParams.toMap (p : TranslateParams) : List (String × JsValue) :=
  optEntry "text" JsValue.strList p.text
    ++ optEntry "model_id" JsValue.str p.model_id
    ++ optEntry "source" JsValue.str p.source
    ++ optEntry "target" JsValue.str p.target

/-- Parameters of `identify` (src interface `IdentifyParams`). -/
structure IdentifyParams where
  text : Option String
  headers : StrMap
  return_response : Option Bool
  deriving DecidableEq

def IdentifyParams.toMap (p : IdentifyParams) : List (String × JsValue) :=
  optEntry "text" JsValue.str p.text

/-- Parameters of `listIdentifiableLanguages`. -/
structure ListIdentifiableLanguagesParams where
  headers : StrMap
  return_response : Option Bool
  deriving DecidableEq

/-- Parameters of `createModel` (src interface `CreateModelParams`); the TMX
uploads are opaque binary payloads. -/
structure CreateModelParams where
  base_model_id : Option String
  forced_glossary : Option String
  parallel_corpus : Option String
  name : Option String
  headers : StrMap
  return_response : Option Bool
  deriving DecidableEq

def CreateModelParams.toMap (p : CreateModelParams) : List (String × JsValue) :=
  optEntry "base_model_id" JsValue.str p.base_model_id
    ++ optEntry "forced_glossary" JsValue.file p.forced_glossary
    ++ optEntry "parallel_corpus" JsValue.file p.parallel_corpus
    ++ optEntry "name" JsValue.str p.name

/-- Parameters of `deleteModel` (src interface `DeleteModelParams`). -/
structure DeleteModelParams where
  model_id : Option String
  headers : StrMap
  return_response : Option Bool
  deriving DecidableEq

def DeleteModelParams.toMap (p : DeleteModelParams) : List (String × JsValue) :=
  optEntry "model_id" JsValue.str p.model_id

/-- Parameters of `getModel` (src interface `GetModelParams`). -/
structure GetModelParams where
  model_id : Option String
  headers : StrMap
  return_response : Option Bool
  deriving DecidableEq

def GetModelParams.toMap (p : GetModelParams) : List (String × JsValue) :=
  optEntry "model_id" JsValue.str p.model_id

/-- Parameters of `listModels` (src interface `ListModelsParams`). -/
structure ListModelsParams where
  source : Option String
  target : Option String
  default_models : Option Bool
  headers : StrMap
  return_response : Option Bool
  deriving DecidableEq

/-! ## The seven operations (callback path)

Each definition is the body of the corresponding façade method from the point
where the snapshot exists: run `getMissingParams` against the operation's
`requiredParams` list and stop with the validation error (the completion
handler's first argument; `createRequest` is never reached), or assemble the
`parameters` record exactly as the source spells it out.  The record each
operation builds is named separately (`...Request`) so theorems can refer to
it. -/

/-- The `parameters` record `translate` builds (src lines 98-119). -/
def translateRequest (c : Client) (p : TranslateParams) : RequestParameters :=
  { url := "/v3/translate"
    method := .post
    body := .json [("text", jsOpt JsValue.strList p.text),
                   ("model_id", jsOpt JsValue.str p.model_id),
                   ("source", jsOpt JsValue.str p.source),
                   ("target", jsOpt JsValue.str p.target)]
    qs := []
    path := []
    headers := mergedHeaders c (getSdkHeaders "language_translator" "v3" "translate")
      [("Accept", "application/json"), ("Content-Type", "application/json")] p.headers
    defaultQs := [("version", c.version)] }

/-- `translate` (src lines 80-122): required `['text']`; JSON body built from
`text`, `model_id`, `source`, `target`; POST `/v3/translate`. -/
def translate (c : Client) (p : TranslateParams) : OpResult :=
  match getMissingParams p.toMap ["text"] with
  | Option.some missing => .validationError missing
  | Option.none => .request (translateRequest c p)

/-- The `parameters` record `identify` builds (src lines 156-172). -/
def identifyRequest (c : Client) (p : IdentifyParams) : RequestParameters :=
  { url := "/v3/identify"
    method := .post
    body := .raw (jsOpt JsValue.str p.text)
    qs := []
    path := []
    headers := mergedHeaders c (getSdkHeaders "language_translator" "v3" "identify")
      [("Accept", "application/json"), ("Content-Type", "text/plain")] p.headers
    defaultQs := [("version", c.version)] }

/-- `identify` (src lines 139-175): required `['text']`; the body is the raw
value of `_params.text`; POST `/v3/identify` with `Content-Type: text/plain`. -/
def identify (c : Client) (p : IdentifyParams) : OpResult :=
  match getMissingParams p.toMap ["text"] with
  | Option.some missing => .validationError missing
  | Option.none => .request (identifyRequest c p)

/-- The `parameters` record `listIdentifiableLanguages` builds (src lines
200-212). -/
def listIdentifiableLanguagesRequest (c : Client)
    (p : ListIdentifiableLanguagesParams) : RequestParameters :=
  { url := "/v3/identifiable_languages"
    method := .get
    body := .none
    qs := []
    path := []
    headers := mergedHeaders c
      (getSdkHeaders "language_translator" "v3" "listIdentifiableLanguages")
      [("Accept", "application/json")] p.headers
    defaultQs := [("version", c.version)] }

/-- `listIdentifiableLanguages` (src lines 188-215): no required parameters,
no body; GET `/v3/identifiable_languages`. -/
def listIdentifiableLanguages (c : Client) (p : ListIdentifiableLanguagesParams) : OpResult :=
  .request (listIdentifiableLanguagesRequest c p)

/-- The `parameters` record `createModel` builds (src lines 273-304):
multipart form with the two declared upload fields, each wrapped with content
type `application/octet-stream` and carrying the raw (possibly `undefined`)
parameter value; query object from `base_model_id` and `name`. -/
def createModelRequest (c : Client) (p : CreateModelParams) : RequestParameters :=
  { url := "/v3/models"
    method := .post
    body := .form [("forced_glossary",
                     { data := jsOpt JsValue.file p.forced_glossary,
                       contentType := "application/octet-stream" }),
                   ("parallel_corpus",
                     { data := jsOpt JsValue.file p.parallel_corpus,
                       contentType := "application/octet-stream" })]
    qs := [("base_model_id", jsOpt JsValue.str p.base_model_id),
           ("name", jsOpt JsValue.str p.name)]
    path := []
    headers := mergedHeaders c (getSdkHeaders "language_translator" "v3" "createModel")
      [("Accept", "application/json"), ("Content-Type", "multipart/form-data")] p.headers
    defaultQs := [("version", c.version)] }

/-- `createModel` (src lines 256-307): required `['base_model_id']`; POST
`/v3/models`. -/
def createModel (c : Client) (p : CreateModelParams) : OpResult :=
  match getMissingParams p.toMap ["base_model_id"] with
  | Option.some missing => .validationError missing
  | Option.none => .request (createModelRequest c p)

/-- The `parameters` record `deleteModel` builds (src lines 338-355). -/
def deleteModelRequest (c : Client) (p : DeleteModelParams) : RequestParameters :=
  { url := "/v3/models/{model_id}"
    method := .delete
    body := .none
    qs := []
    path := [("model_id", jsOpt JsValue.str p.model_id)]
    headers := mergedHeaders c (getSdkHeaders "language_translator" "v3" "deleteModel")
      [("Accept", "application/json")] p.headers
    defaultQs := [("version", c.version)] }

/-- `deleteModel` (src lines 320-358): required `['model_id']`; DELETE
`/v3/models/{model_id}` with the path substitution object. -/
def deleteModel (c : Client) (p : DeleteModelParams) : OpResult :=
  match getMissingParams p.toMap ["model_id"] with
  | Option.some missing => .validationError missing
  | Option.none => .request (deleteModelRequest c p)

/-- The `parameters` record `getModel` builds (src lines 390-407). -/
def getModelRequest (c : Client) (p : GetModelParams) : RequestParameters :=
  { url := "/v3/models/{model_id}"
    method := .get
    body := .none
    qs := []
    path := [("model_id", jsOpt JsValue.str p.model_id)]
    headers := mergedHeaders c (getSdkHeaders "language_translator" "v3" "getModel")
      [("Accept", "application/json")] p.headers
    defaultQs := [("version", c.version)] }

/-- `getModel` (src lines 372-410): required `['model_id']`; GET
`/v3/models/{model_id}` with the path substitution object. -/
def getModel (c : Client) (p : GetModelParams) : OpResult :=
  match getMissingParams p.toMap ["model_id"] with
  | Option.some missing => .validationError missing
  | Option.none => .request (getModelRequest c p)

/-- The `parameters` record `listModels` builds (src lines 440-459): query
object from `source`, `target` and `default_models` (the latter under the wire
name `default`). -/
def listModelsRequest (c : Client) (p : ListModelsParams) : RequestParameters :=
  { url := "/v3/models"
    method := .get
    body := .none
    qs := [("source", jsOpt JsValue.str p.source),
           ("target", jsOpt JsValue.str p.target),
           ("default", jsOpt JsValue.bool p.default_models)]
    path := []
    headers := mergedHeaders c (getSdkHeaders "language_translator" "v3" "listModels")
      [("Accept", "application/json")] p.headers
    defaultQs := [("version", c.version)] }

/-- `listModels` (src lines 428-462): no required parameters; GET
`/v3/models`. -/
def listModels (c : Client) (p : ListModelsParams) : OpResult :=
  .request (listModelsRequest c p)

/-! ## The request builder (modelled transport collaborator side) -/

/-- Uppercase hexadecimal digit of a number below 16. -/
def hexDigit (n : Nat) : Char :=
  if n < 10 then Char.ofNat (48 + n) else Char.ofNat (55 + n)

/-- Modelled from the spec: §4.2 substitutes each placeholder "with the
URL-escaped value"; characters `encodeURIComponent` leaves intact
(alphanumerics and `- _ . ~ ! * ( )` and the apostrophe, code point 39). -/
def isUnreservedChar (c : Char) : Bool :=
  c.isAlphanum || c = '-' || c = '_' || c = '.' || c = '~' || c = '!'
    || c = '*' || c.toNat = 39 || c = '(' || c = ')'

/-- Percent-encoding of one character: kept verbatim when unreserved,
otherwise each UTF-8 byte becomes a `%HH` triple. -/
def urlEncodeChar (c : Char) : String :=
  if isUnreservedChar c then String.singleton c
  else String.join ((String.singleton c).toUTF8.toList.map (fun b =>
    String.mk ['%', hexDigit (b.toNat / 16), hexDigit (b.toNat % 16)]))

/-- URL-escaping of a path parameter value. -/
def urlEncode (s : String) : String :=
  String.join (s.toList.map urlEncodeChar)

/-- Modelled from the spec: §4.2 path templating — every named placeholder of
the operation path is replaced by the URL-escaped defined string value bound
to that name in the path object. -/
def substitutePath (url : String) (path : List (String × JsValue)) : String :=
  path.foldl (fun u e =>
    match e.2 with
    | JsValue.str v => u.replace ("\x7b" ++ e.1 ++ "\x7d") (urlEncode v)
    | _ => u) url

/-- Modelled from the spec: §4.2 query assembly — entries whose value is
undefined are omitted; booleans serialize as literal `true`/`false`; the
query parameters of this API are scalar. -/
def serializeQueryValue : JsValue → Option String
  | JsValue.undef => Option.none
  | JsValue.str s => Option.some s
  | JsValue.bool b => Option.some (if b then "true" else "false")
  | JsValue.strList l => Option.some (String.intercalate "," l)
  | JsValue.file _ => Option.none

/-- The assembled query entries of an operation's query object. -/
def buildQuery (qs : List (String × JsValue)) : StrMap :=
  qs.filterMap (fun e => (serializeQueryValue e.2).map (fun v => (e.1, v)))

/-- One serialized multipart form field: a defined payload with its explicit
content type. -/
structure FormPart where
  data : String
  contentType : String
  deriving DecidableEq

/-- The body as the transport sends it. -/
inductive WireBody where
  | none
  | json (fields : List (String × JsValue))
  | raw (v : JsValue)
  | form (fields : List (String × FormPart))
  deriving DecidableEq

/-- Modelled from the spec: §4.2 body assembly — a JSON body keeps exactly
the declared fields that are present (absent optional fields are omitted from
the object, not sent as null); a plain-text body is the raw parameter value;
a multipart form omits every field whose value is undefined and keeps the
explicit content type of each remaining field. -/
def buildBody : BodySpec → WireBody
  | BodySpec.none => WireBody.none
  | BodySpec.json fields => WireBody.json (fields.filter (fun f => f.2 ≠ JsValue.undef))
  | BodySpec.raw v => WireBody.raw v
  | BodySpec.form fields => WireBody.form (fields.filterMap (fun f =>
      match f.2.data with
      | JsValue.file payload =>
          Option.some (f.1, { data := payload, contentType := f.2.contentType })
      | _ => Option.none))

/-- The fully assembled, transport-ready request (spec §3 "Request
descriptor"). -/
structure RequestDescriptor where
  url : String
  method : Method
  query : StrMap
  headers : StrMap
  body : WireBody
  deriving DecidableEq

/-- Modelled from the spec: the pure request-building step inside the
external `createRequest`/`sendRequest` (spec §4.2 and §4.3 step 4): path
substitution, query assembly from the persistent defaults (the version tag)
overlaid with the operation's serialized query entries, the already-merged
headers, and the serialized body. -/
def createRequestDescriptor (rp : RequestParameters) : RequestDescriptor :=
  { url := substitutePath rp.url rp.path
    method := rp.method
    query := hmerge rp.defaultQs (buildQuery rp.qs)
    headers := rp.headers
    body := buildBody rp.body }

/-! ## The callback/promise result channel -/

/-- The decoded transport response: status, headers and decoded body. -/
structure TransportResponse where
  status : Nat
  headers : StrMap
  body : JsValue
  deriving DecidableEq

/-- What one underlying call reports to the completion handler: an error in
the first argument, or a decoded body plus the full response. -/
inductive CallOutcome where
  | err (e : JsValue)
  | ok (body : JsValue) (response : TransportResponse)
  deriving DecidableEq

/-- A settled promise of the no-callback path. -/
inductive PromiseResult where
  | rejected (e : JsValue)
  | resolvedBody (b : JsValue)
  | resolvedResponse (r : TransportResponse)
  deriving DecidableEq

/-- JavaScript truthiness of the optional `return_response` flag. -/
def truthy : Option Bool → Bool
  | Option.some b => b
  | Option.none => false

/-- The promise wrapper every operation repeats (e.g. src lines 85-91):
`err ? reject(err) : _params.return_response ? resolve(res) : resolve(bod)`,
with `return_response` read from the snapshot. -/
def settle (returnResponse : Bool) : CallOutcome → PromiseResult
  | CallOutcome.err e => PromiseResult.rejected e
  | CallOutcome.ok b r =>
      if returnResponse then PromiseResult.resolvedResponse r
      else PromiseResult.resolvedBody b

/-- The `Error` value surfaced for missing required parameters, naming them. -/
def missingParamsError (missing : List String) : JsValue :=
  JsValue.str ("Missing required parameters: " ++ String.intercalate ", " missing)

/-- Run a validated-or-failed operation against a transport stub: the stub is
consulted exactly when validation succeeded; otherwise the completion handler
receives the validation error. -/
def runWith (r : OpResult) (transport : RequestParameters → CallOutcome) : CallOutcome :=
  match r with
  | OpResult.validationError m => CallOutcome.err (missingParamsError m)
  | OpResult.request rp => transport rp

/-- The promise `translate` returns when no callback is supplied. -/
def translatePromise (c : Client) (p : TranslateParams)
    (transport : RequestParameters → CallOutcome) : PromiseResult :=
  settle (truthy p.return_response) (runWith (translate c p) transport)

/-- The promise `identify` returns when no callback is supplied. -/
def identifyPromise (c : Client) (p : IdentifyParams)
    (transport : RequestParameters → CallOutcome) : PromiseResult :=
  settle (truthy p.return_response) (runWith (identify c p) transport)

/-- The promise `listIdentifiableLanguages` returns when no callback is
supplied. -/
def listIdentifiableLanguagesPromise (c : Client) (p : ListIdentifiableLanguagesParams)
    (transport : RequestParameters → CallOutcome) : PromiseResult :=
  settle (truthy p.return_response) (runWith (listIdentifiableLanguages c p) transport)

/-- The promise `createModel` returns when no callback is supplied. -/
def createModelPromise (c : Client) (p : CreateModelParams)
    (transport : RequestParameters → CallOutcome) : PromiseResult :=
  settle (truthy p.return_response) (runWith (createModel c p) transport)

/-- The promise `deleteModel` returns when no callback is supplied. -/
def deleteModelPromise (c : Client) (p : DeleteModelParams)
    (transport : RequestParameters → CallOutcome) : PromiseResult :=
  settle (truthy p.return_response) (runWith (deleteModel c p) transport)

/-- The promise `getModel` returns when no callback is supplied. -/
def getModelPromise (c : Client) (p : GetModelParams)
    (transport : RequestParameters → CallOutcome) : PromiseResult :=
  settle (truthy p.return_response) (runWith (getModel c p) transport)

/-- The promise `listModels` returns when no callback is supplied. -/
def listModelsPromise (c : Client) (p : ListModelsParams)
    (transport : RequestParameters → CallOutcome) : PromiseResult :=
  settle (truthy p.return_response) (runWith (listModels c p) transport)

/-! ## The public calling convention (first-argument dispatch) -/

/-- An opaque completion callback, compared by identity. -/
structure Callback where
  id : Nat
  deriving DecidableEq

/-- What JavaScript lets a caller place in the first argument slot: a params
object or directly a function. -/
inductive ParamsOrCallback (P : Type) where
  | params (p : P)
  | func (f : Callback)
  deriving DecidableEq

/-- How an invocation at the public interface proceeds: the validation/build
outcome is wrapped in a returned promise (no effective callback), or it is
delivered to the effective completion callback. -/
inductive EntryResult where
  | promise (r : OpResult)
  | delivered (r : OpResult) (receiver : Callback)
  deriving DecidableEq

/-- The empty params object `{}`. -/
def emptyListIdentifiableLanguagesParams : ListIdentifiableLanguagesParams :=
  { headers := [], return_response := Option.none }

/-- The empty params object `{}`. -/
def emptyListModelsParams : ListModelsParams :=
  { source := Option.none, target := Option.none, default_models := Option.none,
    headers := [], return_response := Option.none }

/-- The empty params object `{}`, as `extend({}, fn)` produces it from a
function first argument (a plain function has no own enumerable
properties). -/
def emptyTranslateParams : TranslateParams :=
  { text := Option.none, model_id := Option.none, source := Option.none,
    target := Option.none, headers := [], return_response := Option.none }

/-- The empty params object `{}`. -/
def emptyIdentifyParams : IdentifyParams :=
  { text := Option.none, headers := [], return_response := Option.none }

/-- The empty params object `{}`. -/
def emptyCreateModelParams : CreateModelParams :=
  { base_model_id := Option.none, forced_glossary := Option.none,
    parallel_corpus := Option.none, name := Option.none, headers := [],
    return_response := Option.none }

/-- The empty params object `{}`. -/
def emptyDeleteModelParams : DeleteModelParams :=
  { model_id := Option.none, headers := [], return_response := Option.none }

/-- The empty params object `{}`. -/
def emptyGetModelParams : GetModelParams :=
  { model_id := Option.none, headers := [], return_response := Option.none }

/-- The public entry of `listIdentifiableLanguages` (src lines 188-198):
`_params = (typeof params === 'function' && !callback) ? {} : extend({},
params)` and `_callback = (typeof params === 'function' && !callback) ?
params : callback`; a missing first argument snapshots to `{}` as well. -/
def listIdentifiableLanguagesEntry (c : Client)
    (params : Option (ParamsOrCallback ListIdentifiableLanguagesParams))
    (callback : Option Callback) : EntryResult :=
  match params, callback with
  | Option.some (ParamsOrCallback.func f), Option.none =>
      EntryResult.delivered (listIdentifiableLanguages c emptyListIdentifiableLanguagesParams) f
  | Option.some (ParamsOrCallback.func _), Option.some f =>
      EntryResult.delivered (listIdentifiableLanguages c emptyListIdentifiableLanguagesParams) f
  | Option.some (ParamsOrCallback.params p), Option.none =>
      EntryResult.promise (listIdentifiableLanguages c p)
  | Option.some (ParamsOrCallback.params p), Option.some f =>
      EntryResult.delivered (listIdentifiableLanguages c p) f
  | Option.none, Option.none =>
      EntryResult.promise (listIdentifiableLanguages c emptyListIdentifiableLanguagesParams)
  | Option.none, Option.some f =>
      EntryResult.delivered (listIdentifiableLanguages c emptyListIdentifiableLanguagesParams) f

/-- The public entry of `listModels` (src lines 428-438), with the same
first-argument dispatch as `listIdentifiableLanguages`. -/
def listModelsEntry (c : Client)
    (params : Option (ParamsOrCallback ListModelsParams))
    (callback : Option Callback) : EntryResult :=
  match params, callback with
  | Option.some (ParamsOrCallback.func f), Option.none =>
      EntryResult.delivered (listModels c emptyListModelsParams) f
  | Option.some (ParamsOrCallback.func _), Option.some f =>
      EntryResult.delivered (listModels c emptyListModelsParams) f
  | Option.some (ParamsOrCallback.params p), Option.none =>
      EntryResult.promise (listModels c p)
  | Option.some (ParamsOrCallback.params p), Option.some f =>
      EntryResult.delivered (listModels c p) f
  | Option.none, Option.none =>
      EntryResult.promise (listModels c emptyListModelsParams)
  | Option.none, Option.some f =>
      EntryResult.delivered (listModels c emptyListModelsParams) f

/-- The public entry of `translate` (src lines 80-96) under JavaScript's
loose calling convention: there is no function-typed first-argument check, so
the first argument is always snapshotted with `extend({}, params)` — a
function first argument yields the empty snapshot — and only the second
argument can become the callback. -/
def translateEntry (c : Client) (params : Option (ParamsOrCallback TranslateParams))
    (callback : Option Callback) : EntryResult :=
  let snapshot := match params with
    | Option.some (ParamsOrCallback.params p) => p
    | Option.some (ParamsOrCallback.func _) => emptyTranslateParams
    | Option.none => emptyTranslateParams
  match callback with
  | Option.none => EntryResult.promise (translate c snapshot)
  | Option.some f => EntryResult.delivered (translate c snapshot) f

/-- The public entry of `identify` (src lines 139-155): no first-argument
dispatch. -/
def identifyEntry (c : Client) (params : Option (ParamsOrCallback IdentifyParams))
    (callback : Option Callback) : EntryResult :=
  let snapshot := match params with
    | Option.some (ParamsOrCallback.params p) => p
    | Option.some (ParamsOrCallback.func _) => emptyIdentifyParams
    | Option.none => emptyIdentifyParams
  match callback with
  | Option.none => EntryResult.promise (identify c snapshot)
  | Option.some f => EntryResult.delivered (identify c snapshot) f

/-- The public entry of `createModel` (src lines 256-272): no first-argument
dispatch. -/
def createModelEntry (c : Client) (params : Option (ParamsOrCallback CreateModelParams))
    (callback : Option Callback) : EntryResult :=
  let snapshot := match params with
    | Option.some (ParamsOrCallback.params p) => p
    | Option.some (ParamsOrCallback.func _) => emptyCreateModelParams
    | Option.none => emptyCreateModelParams
  match callback with
  | Option.none => EntryResult.promise (createModel c snapshot)
  | Option.some f => EntryResult.delivered (createModel c snapshot) f

/-- The public entry of `deleteModel` (src lines 320-336): no first-argument
dispatch. -/
def deleteModelEntry (c : Client) (params : Option (ParamsOrCallback DeleteModelParams))
    (callback : Option Callback) : EntryResult :=
  let snapshot := match params with
    | Option.some (ParamsOrCallback.params p) => p
    | Option.some (ParamsOrCallback.func _) => emptyDeleteModelParams
    | Option.none => emptyDeleteModelParams
  match callback with
  | Option.none => EntryResult.promise (deleteModel c snapshot)
  | Option.some f => EntryResult.delivered (deleteModel c snapshot) f

/-- The public entry of `getModel` (src lines 372-388): no first-argument
dispatch. -/
def getModelEntry (c : Client) (params : Option (ParamsOrCallback GetModelParams))
    (callback : Option Callback) : EntryResult :=
  let snapshot := match params with
    | Option.some (ParamsOrCallback.params p) => p
    | Option.some (ParamsOrCallback.func _) => emptyGetModelParams
    | Option.none => emptyGetModelParams
  match callback with
  | Option.none => EntryResult.promise (getModel c snapshot)
  | Option.some f => EntryResult.delivered (getModel c snapshot) f

/-! ## The mutation window of an in-flight call

The source snapshots the caller's params (`const _params = extend({},
params)`) as its first statement, and JavaScript's run-to-completion
semantics mean the whole synchronous body — validation, the `parameters`
record handed to `createRequest`, and the `Promise` executor of the
no-callback path (which re-invokes the method on the caller's object inside
the `Promise` constructor) — finishes before the caller can run again.  The
earliest a caller mutation of the params object can happen is therefore
after this synchronous phase, and the only read the call performs after that
point is `_params.return_response` inside the completion closure (src line
88), which goes through the snapshot.  The definitions below make this
timeline explicit: `beginCall` is the synchronous phase, and the rest of the
call's life is a sequence of events — caller mutations rewriting the params
object (the store) and the transport completion, which runs the closure in
the then-current store. -/

/-- One post-entry step in the life of an in-flight call: the caller mutates
the params object, or the transport completes and the completion closure
runs. -/
inductive CallEvent (P : Type) where
  | mutate (f : P → P)
  | complete

/-- What the synchronous phase of an operation leaves behind: the snapshot
`_params` (the `extend({}, params)` copy of the caller's object at entry)
and the validation/build outcome, computed from that snapshot alone before
control returns. -/
structure InFlight (P : Type) where
  snapshot : P
  result : OpResult

/-- The synchronous phase at entry: copy the current value of the caller's
object into the snapshot, then run validation and request building from the
snapshot. -/
def beginCall {P : Type} (op : P → OpResult) (callerObj : P) : InFlight P :=
  { snapshot := callerObj, result := op callerObj }

/-- Drive an in-flight call through its post-entry events, threading the
current value of the caller's params object (the store): a mutation rewrites
the store; on transport completion the closure runs with the then-current
store in scope but — per src line 88 — reads `return_response` from the
captured snapshot, settling the promise from the snapshot and the transport
outcome.  The result is the settled promise together with the store at
completion, or nothing if the transport never completed. -/
def runEvents {P : Type} (rr : P → Option Bool) (fl : InFlight P)
    (transport : RequestParameters → CallOutcome) :
    List (CallEvent P) → P → Option (PromiseResult × P)
  | [], _ => Option.none
  | CallEvent.mutate f :: rest, store => runEvents rr fl transport rest (f store)
  | CallEvent.complete :: _, store =>
      Option.some (settle (truthy (rr fl.snapshot)) (runWith fl.result transport), store)

/-! ## Statement helpers and concrete fixtures -/

/-- The form entry a defined upload parameter contributes to the multipart
form, and nothing when the parameter is undefined (used to state the
declared-form-field property). -/
def formPartOf (k : String) : Option String → List (String × FormPart)
  | Option.some d => [(k, { data := d, contentType := "application/octet-stream" })]
  | Option.none => []

/-- A concrete client used by the witness theorems. -/
def wClient : Client :=
  { version := "2018-05-01",
    defaultHeaders := [("X-Watson-Learning-Opt-Out", "1")], url := URL }

/-- A concrete transport stub that always fails. -/
def wFailTransport : RequestParameters → CallOutcome :=
  fun _ => CallOutcome.err (JsValue.str "boom")

/-- A concrete transport stub that always succeeds with a fixed response. -/
def wOkTransport : RequestParameters → CallOutcome :=
  fun _ => CallOutcome.ok (JsValue.str "BODY")
    { status := 200, headers := [("X-R", "1")], body := JsValue.str "BODY" }

/-- Concrete `translate` parameters used by witness theorems. -/
def wTranslateParams : TranslateParams :=
  { text := Option.some ["hello"], model_id := Option.none,
    source := Option.some "en", target := Option.some "es",
    headers := [("Accept", "text/html")], return_response := Option.none }

/-- Concrete `createModel` parameters used by witness theorems. -/
def wCreateModelParams : CreateModelParams :=
  { base_model_id := Option.some "en-es", forced_glossary := Option.some "GLOSS",
    parallel_corpus := Option.none, name := Option.none, headers := [],
    return_response := Option.none }

/-- Concrete `identify` parameters used by witness theorems. -/
def wIdentifyParams : IdentifyParams :=
  { text := Option.some "hola", headers := [], return_response := Option.none }

/-- Concrete `listModels` parameters used by witness theorems. -/
def wListModelsParams : ListModelsParams :=
  { source := Option.some "en", target := Option.none,
    default_models := Option.some false, headers := [],
    return_response := Option.none }

/-- A concrete caller mutation used by witness theorems: after the call
returns, the caller flips `return_response` on and deletes `text`. -/
def wMutation : TranslateParams → TranslateParams :=
  fun p => { p with return_response := Option.some true, text := Option.none }

/-! ## Helper lemmas -/

theorem orFirst_assoc (a b c : Option String) :
    orFirst (orFirst a b) c = orFirst a (orFirst b c) := by
  cases a <;> simp [orFirst]

theorem lookupS_single (k v k' : String) :
    lookupS [(k, v)] k' = if k = k' then some v else none := by
  by_cases h : k = k' <;> simp [lookupS, List.find?, h]

theorem translate_request_eq (c : Client) (p : TranslateParams) (rp : RequestParameters)
    (h : translate c p = OpResult.request rp) : rp = translateRequest c p := by
  unfold translate at h
  split at h
  · simp at h
  · injection h with h2
    exact h2.symm

theorem identify_request_eq (c : Client) (p : IdentifyParams) (rp : RequestParameters)
    (h : identify c p = OpResult.request rp) : rp = identifyRequest c p := by
  unfold identify at h
  split at h
  · simp at h
  · injection h with h2
    exact h2.symm

theorem createModel_request_eq (c : Client) (p : CreateModelParams) (rp : RequestParameters)
    (h : createModel c p = OpResult.request rp) : rp = createModelRequest c p := by
  unfold createModel at h
  split at h
  · simp at h
  · injection h with h2
    exact h2.symm

theorem deleteModel_request_eq (c : Client) (p : DeleteModelParams) (rp : RequestParameters)
    (h : deleteModel c p = OpResult.request rp) : rp = deleteModelRequest c p := by
  unfold deleteModel at h
  split at h
  · simp at h
  · injection h with h2
    exact h2.symm

theorem getModel_request_eq (c : Client) (p : GetModelParams) (rp : RequestParameters)
    (h : getModel c p = OpResult.request rp) : rp = getModelRequest c p := by
  unfold getModel at h
  split at h
  · simp at h
  · injection h with h2
    exact h2.symm

theorem listIdentifiableLanguages_request_eq (c : Client)
    (p : ListIdentifiableLanguagesParams) (rp : RequestParameters)
    (h : listIdentifiableLanguages c p = OpResult.request rp) :
    rp = listIdentifiableLanguagesRequest c p := by
  unfold listIdentifiableLanguages at h
  injection h with h2
  exact h2.symm

theorem listModels_request_eq (c : Client) (p : ListModelsParams) (rp : RequestParameters)
    (h : listModels c p = OpResult.request rp) : rp = listModelsRequest c p := by
  unfold listModels at h
  injection h with h2
  exact h2.symm

theorem translate_lookup_text (p : TranslateParams) :
    lookupJs p.toMap "text" = p.text.map JsValue.strList := by
  obtain ⟨t, mi, s, g, hh, rr⟩ := p
  cases t <;> cases mi <;> cases s <;> cases g <;>
    simp [TranslateParams.toMap, optEntry, lookupJs, List.find?]

theorem identify_lookup_text (p : IdentifyParams) :
    lookupJs p.toMap "text" = p.text.map JsValue.str := by
  obtain ⟨t, hh, rr⟩ := p
  cases t <;> simp [IdentifyParams.toMap, optEntry, lookupJs, List.find?]

theorem createModel_lookup_base (p : CreateModelParams) :
    lookupJs p.toMap "base_model_id" = p.base_model_id.map JsValue.str := by
  obtain ⟨b, fg, pc, nm, hh, rr⟩ := p
  cases b <;> cases fg <;> cases pc <;> cases nm <;>
    simp [CreateModelParams.toMap, optEntry, lookupJs, List.find?]

theorem deleteModel_lookup_model (p : DeleteModelParams) :
    lookupJs p.toMap "model_id" = p.model_id.map JsValue.str := by
  obtain ⟨mi, hh, rr⟩ := p
  cases mi <;> simp [DeleteModelParams.toMap, optEntry, lookupJs, List.find?]

theorem getModel_lookup_model (p : GetModelParams) :
    lookupJs p.toMap "model_id" = p.model_id.map JsValue.str := by
  obtain ⟨mi, hh, rr⟩ := p
  cases mi <;> simp [GetModelParams.toMap, optEntry, lookupJs, List.find?]

theorem lookupS_hmerge_of_ne (a q : StrMap) (k : String)
    (h : ∀ e ∈ q, e.1 ≠ k) : lookupS (hmerge a q) k = lookupS a k := by
  induction q generalizing a with
  | nil => rfl
  | cons e rest ih =>
    have hstep : hmerge a (e :: rest) = hmerge (setEntry a e.1 e.2) rest := rfl
    rw [hstep, ih (setEntry a e.1 e.2) (fun x hx => h x (List.mem_cons_of_mem e hx)),
        lookupS_setEntry]
    exact if_neg (fun hk => h e (List.mem_cons_self e rest) hk.symm)

theorem mem_buildQuery_keys (qs : List (String × JsValue)) (e : String × String)
    (h : e ∈ buildQuery qs) : e.1 ∈ qs.map Prod.fst := by
  unfold buildQuery at h
  rcases List.mem_filterMap.mp h with ⟨a, ha, hm⟩
  rcases Option.map_eq_some'.mp hm with ⟨v, _, hfv⟩
  rw [← hfv]
  exact List.mem_map.mpr ⟨a, ha, rfl⟩

theorem lookup_version_of_keys (v : String) (qs : List (String × JsValue))
    (h : ∀ k ∈ qs.map Prod.fst, k ≠ "version") :
    lookupS (hmerge [("version", v)] (buildQuery qs)) "version" = some v := by
  rw [lookupS_hmerge_of_ne]
  · simp [lookupS, List.find?]
  · intro e he
    exact h e.1 (mem_buildQuery_keys qs e he)

theorem lookupS_accept_ct (a ct k : String) :
    lookupS [("Accept", a), ("Content-Type", ct)] k =
      orFirst (lookupS [("Content-Type", ct)] k) (lookupS [("Accept", a)] k) := by
  by_cases h1 : "Accept" = k
  · have h2 : ¬ ("Content-Type" = k) := fun hh =>
      absurd (hh.trans h1.symm) (by decide)
    simp [lookupS, List.find?, h1, h2, orFirst]
  · by_cases h2 : "Content-Type" = k <;> simp [lookupS, List.find?, h1, h2, orFirst]

theorem lookup_mergedHeaders_two (c : Client) (sk sv a ct : String) (caller : StrMap)
    (hc : NodupKeys caller) (k : String) :
    lookupS (mergedHeaders c [(sk, sv)] [("Accept", a), ("Content-Type", ct)] caller) k =
      orFirst (lookupS caller k)
        (orFirst (lookupS [("Content-Type", ct)] k)
          (orFirst (lookupS [("Accept", a)] k)
            (orFirst (lookupS [(sk, sv)] k) (lookupS c.defaultHeaders k)))) := by
  unfold mergedHeaders
  have h1 : NodupKeys [(sk, sv)] := by simp [NodupKeys]
  have hfixed : NodupKeys [("Accept", a), ("Content-Type", ct)] := by
    simp [NodupKeys]
  have h3 : NodupKeys (hmerge (hmerge [(sk, sv)] [("Accept", a), ("Content-Type", ct)]) caller) :=
    nodupKeys_hmerge _ _ (nodupKeys_hmerge _ _ h1)
  rw [lookupS_hmerge _ _ h3 k, lookupS_hmerge _ _ hc k, lookupS_hmerge _ _ hfixed k,
      lookupS_accept_ct]
  simp [orFirst_assoc]

theorem lookup_mergedHeaders_one (c : Client) (sk sv a : String) (caller : StrMap)
    (hc : NodupKeys caller) (k : String) :
    lookupS (mergedHeaders c [(sk, sv)] [("Accept", a)] caller) k =
      orFirst (lookupS caller k)
        (orFirst (lookupS [("Accept", a)] k)
          (orFirst (lookupS [(sk, sv)] k) (lookupS c.defaultHeaders k))) := by
  unfold mergedHeaders
  have h1 : NodupKeys [(sk, sv)] := by simp [NodupKeys]
  have hfixed : NodupKeys [("Accept", a)] := by simp [NodupKeys]
  have h3 : NodupKeys (hmerge (hmerge [(sk, sv)] [("Accept", a)]) caller) :=
    nodupKeys_hmerge _ _ (nodupKeys_hmerge _ _ h1)
  rw [lookupS_hmerge _ _ h3 k, lookupS_hmerge _ _ hc k, lookupS_hmerge _ _ hfixed k]
  simp [orFirst_assoc]

theorem runEvents_complete_eq {P : Type} (rr : P → Option Bool) (op : P → OpResult)
    (transport : RequestParameters → CallOutcome) (s : P) (evs : List (CallEvent P)) :
    ∀ (store st2 : P) (pr : PromiseResult),
      runEvents rr (beginCall op s) transport evs store = Option.some (pr, st2) →
      pr = settle (truthy (rr s)) (runWith (op s) transport) := by
  induction evs with
  | nil =>
    intro store st2 pr h
    exact absurd h (by simp [runEvents])
  | cons e rest ih =>
    intro store st2 pr h
    cases e with
    | mutate f => exact ih (f store) st2 pr h
    | complete =>
      unfold runEvents at h
      injection h with h2
      exact (congrArg Prod.fst h2).symm

/-! ## Claim theorems -/

/-- C1: for every operation with a declared required-parameter list
(`translate` and `identify` require `text`, `createModel` requires
`base_model_id`, `deleteModel` and `getModel` require `model_id`), invoking
it with that parameter absent or bound to an empty/undefined value yields a
validation error naming the missing parameters through the completion
handler's first argument — and, in the no-callback path, a rejected promise —
and the transport collaborator is never invoked (the outcome is
`validationError`, the branch that returns before `createRequest`; the
promise conjunct holds for every transport stub because the stub is never
consulted). -/
theorem C1_missing_required_short_circuits (c : Client) :
    (∀ p : TranslateParams, (p.text = Option.none ∨ p.text = Option.some []) →
      translate c p = OpResult.validationError ["text"]) ∧
    (∀ (p : TranslateParams) (transport : RequestParameters → CallOutcome),
      (p.text = Option.none ∨ p.text = Option.some []) →
      translatePromise c p transport = PromiseResult.rejected (missingParamsError ["text"])) ∧
    (∀ p : IdentifyParams, (p.text = Option.none ∨ p.text = Option.some "") →
      identify c p = OpResult.validationError ["text"]) ∧
    (∀ p : CreateModelParams,
      (p.base_model_id = Option.none ∨ p.base_model_id = Option.some "") →
      createModel c p = OpResult.validationError ["base_model_id"]) ∧
    (∀ p : DeleteModelParams, (p.model_id = Option.none ∨ p.model_id = Option.some "") →
      deleteModel c p = OpResult.validationError ["model_id"]) ∧
    (∀ p : GetModelParams, (p.model_id = Option.none ∨ p.model_id = Option.some "") →
      getModel c p = OpResult.validationError ["model_id"]) := by
  have htr : ∀ p : TranslateParams, (p.text = Option.none ∨ p.text = Option.some []) →
      translate c p = OpResult.validationError ["text"] := by
    intro p hp
    unfold translate
    rcases hp with hp | hp <;>
      simp [getMissingParams, translate_lookup_text, hp, JsValue.isEmptyVal,
        List.filter, List.isEmpty]
  refine ⟨htr, ?_, ?_, ?_, ?_, ?_⟩
  · intro p transport hp
    unfold translatePromise
    rw [htr p hp]
    rfl
  · intro p hp
    unfold identify
    rcases hp with hp | hp <;>
      simp [getMissingParams, identify_lookup_text, hp, JsValue.isEmptyVal,
        List.filter, List.isEmpty, String.isEmpty]
  · intro p hp
    unfold createModel
    rcases hp with hp | hp <;>
      simp [getMissingParams, createModel_lookup_base, hp, JsValue.isEmptyVal,
        List.filter, List.isEmpty, String.isEmpty]
  · intro p hp
    unfold deleteModel
    rcases hp with hp | hp <;>
      simp [getMissingParams, deleteModel_lookup_model, hp, JsValue.isEmptyVal,
        List.filter, List.isEmpty, String.isEmpty]
  · intro p hp
    unfold getModel
    rcases hp with hp | hp <;>
      simp [getMissingParams, getModel_lookup_model, hp, JsValue.isEmptyVal,
        List.filter, List.isEmpty, String.isEmpty]

/-- Witness for C1 at concrete inputs: `translate` without `text`,
`deleteModel` with an empty `model_id`, and the rejected promise of a
no-callback `translate`, each against a transport stub that is never
consulted. -/
theorem C1_missing_required_short_circuits_witness :
    translate wClient { emptyTranslateParams with model_id := Option.some "en-es" }
      = OpResult.validationError ["text"] ∧
    deleteModel wClient { emptyDeleteModelParams with model_id := Option.some "" }
      = OpResult.validationError ["model_id"] ∧
    translatePromise wClient emptyTranslateParams wOkTransport
      = PromiseResult.rejected (missingParamsError ["text"]) :=
  ⟨(C1_missing_required_short_circuits wClient).1 _ (Or.inl rfl),
   (C1_missing_required_short_circuits wClient).2.2.2.2.1 _ (Or.inr rfl),
   (C1_missing_required_short_circuits wClient).2.1 _ wOkTransport (Or.inl rfl)⟩

/-- C2: constructing with `options.version` undefined throws synchronously;
constructing with a version string succeeds, and on every subsequent
operation call that reaches the transport, the supplied version string is the
`version` entry of the request descriptor's query parameters. -/
theorem C2_version_mandatory_and_injected :
    (∀ o : Options, o.version = Option.none →
      construct o = Except.error "Argument error: version was not specified") ∧
    (∀ (o : Options) (v : String), o.version = Option.some v →
      ∃ c : Client, construct o = Except.ok c ∧ c.version = v ∧
        (∀ (p : TranslateParams) (rp : RequestParameters),
          translate c p = OpResult.request rp →
          lookupS (createRequestDescriptor rp).query "version" = some v) ∧
        (∀ (p : IdentifyParams) (rp : RequestParameters),
          identify c p = OpResult.request rp →
          lookupS (createRequestDescriptor rp).query "version" = some v) ∧
        (∀ (p : ListIdentifiableLanguagesParams) (rp : RequestParameters),
          listIdentifiableLanguages c p = OpResult.request rp →
          lookupS (createRequestDescriptor rp).query "version" = some v) ∧
        (∀ (p : CreateModelParams) (rp : RequestParameters),
          createModel c p = OpResult.request rp →
          lookupS (createRequestDescriptor rp).query "version" = some v) ∧
        (∀ (p : DeleteModelParams) (rp : RequestParameters),
          deleteModel c p = OpResult.request rp →
          lookupS (createRequestDescriptor rp).query "version" = some v) ∧
        (∀ (p : GetModelParams) (rp : RequestParameters),
          getModel c p = OpResult.request rp →
          lookupS (createRequestDescriptor rp).query "version" = some v) ∧
        (∀ (p : ListModelsParams) (rp : RequestParameters),
          listModels c p = OpResult.request rp →
          lookupS (createRequestDescriptor rp).query "version" = some v)) := by
  constructor
  · intro o h
    unfold construct
    rw [h]
  · intro o v h
    refine ⟨{ version := v, defaultHeaders := o.headers, url := o.url.getD URL },
      ?_, rfl, ?_, ?_, ?_, ?_, ?_, ?_, ?_⟩
    · unfold construct
      rw [h]
    · intro p rp hr
      rw [translate_request_eq _ p rp hr]
      simp only [createRequestDescriptor, translateRequest]
      exact lookup_version_of_keys v _ (by intro k hk; simp at hk)
    · intro p rp hr
      rw [identify_request_eq _ p rp hr]
      simp only [createRequestDescriptor, identifyRequest]
      exact lookup_version_of_keys v _ (by intro k hk; simp at hk)
    · intro p rp hr
      rw [listIdentifiableLanguages_request_eq _ p rp hr]
      simp only [createRequestDescriptor, listIdentifiableLanguagesRequest]
      exact lookup_version_of_keys v _ (by intro k hk; simp at hk)
    · intro p rp hr
      rw [createModel_request_eq _ p rp hr]
      simp only [createRequestDescriptor, createModelRequest]
      exact lookup_version_of_keys v _
        (by intro k hk; simp at hk; rcases hk with rfl | rfl <;> decide)
    · intro p rp hr
      rw [deleteModel_request_eq _ p rp hr]
      simp only [createRequestDescriptor, deleteModelRequest]
      exact lookup_version_of_keys v _ (by intro k hk; simp at hk)
    · intro p rp hr
      rw [getModel_request_eq _ p rp hr]
      simp only [createRequestDescriptor, getModelRequest]
      exact lookup_version_of_keys v _ (by intro k hk; simp at hk)
    · intro p rp hr
      rw [listModels_request_eq _ p rp hr]
      simp only [createRequestDescriptor, listModelsRequest]
      exact lookup_version_of_keys v _
        (by intro k hk; simp at hk; rcases hk with rfl | rfl | rfl <;> decide)

/-- Witness for C2: construction without a version tag fails with the exact
error, and construction with the tag `2018-05-01` yields a client whose
version field is that tag. -/
theorem C2_version_mandatory_and_injected_witness :
    construct { version := Option.none, url := Option.none, headers := [] }
      = Except.error "Argument error: version was not specified" ∧
    ∃ c : Client,
      construct { version := Option.some "2018-05-01", url := Option.none, headers := [] }
        = Except.ok c ∧ c.version = "2018-05-01" := by
  refine ⟨C2_version_mandatory_and_injected.1 _ rfl, ?_⟩
  obtain ⟨c, h1, h2, _⟩ := C2_version_mandatory_and_injected.2
    { version := Option.some "2018-05-01", url := Option.none, headers := [] }
    "2018-05-01" rfl
  exact ⟨c, h1, h2⟩

/-- C3: a `translate` call whose params contain `text`, `source` and `target`
but no `model_id` produces a POST to `/v3/translate` whose JSON body contains
exactly the fields `text`, `source`, `target` with the supplied values and no
`model_id` field: the undefined optional field is omitted from the serialized
body object, not sent as null/undefined. -/
theorem C3_translate_body_exact_fields (c : Client) (p : TranslateParams)
    (t : List String) (s g : String) (rp : RequestParameters)
    (ht : p.text = Option.some t) (hs : p.source = Option.some s)
    (hg : p.target = Option.some g) (hm : p.model_id = Option.none)
    (hr : translate c p = OpResult.request rp) :
    (createRequestDescriptor rp).url = "/v3/translate" ∧
    (createRequestDescriptor rp).method = Method.post ∧
    (createRequestDescriptor rp).body =
      WireBody.json [("text", JsValue.strList t), ("source", JsValue.str s),
                     ("target", JsValue.str g)] := by
  rw [translate_request_eq c p rp hr]
  refine ⟨rfl, rfl, ?_⟩
  simp [createRequestDescriptor, translateRequest, buildBody, jsOpt, ht, hs, hg, hm,
    List.filter]

/-- Witness for C3 at `translate({text: ["hello"], source: "en", target:
"es"})`. -/
theorem C3_translate_body_exact_fields_witness :
    translate wClient wTranslateParams
      = OpResult.request (translateRequest wClient wTranslateParams) ∧
    (createRequestDescriptor (translateRequest wClient wTranslateParams)).body =
      WireBody.json [("text", JsValue.strList ["hello"]), ("source", JsValue.str "en"),
                     ("target", JsValue.str "es")] := by
  have h : translate wClient wTranslateParams
      = OpResult.request (translateRequest wClient wTranslateParams) := rfl
  exact ⟨h, (C3_translate_body_exact_fields wClient wTranslateParams
    ["hello"] "en" "es" _ rfl rfl rfl rfl h).2.2⟩

/-- C4: the multipart form of a `createModel` request contains an entry for a
declared form field (`forced_glossary`, `parallel_corpus`) exactly when the
corresponding parameter is defined — an undefined field is omitted from the
form entirely — and every included entry carries content type
`application/octet-stream`. -/
theorem C4_createModel_form_defined_fields (c : Client) (p : CreateModelParams)
    (rp : RequestParameters) (hr : createModel c p = OpResult.request rp) :
    (createRequestDescriptor rp).body =
      WireBody.form (formPartOf "forced_glossary" p.forced_glossary
        ++ formPartOf "parallel_corpus" p.parallel_corpus) := by
  rw [createModel_request_eq c p rp hr]
  obtain ⟨b, fg, pc, nm, hh, rr⟩ := p
  cases fg <;> cases pc <;>
    simp [createRequestDescriptor, createModelRequest, buildBody, jsOpt, formPartOf,
      List.filterMap]

/-- Witness for C4: `createModel` with a defined `forced_glossary` and an
undefined `parallel_corpus` yields a one-entry form with content type
`application/octet-stream`. -/
theorem C4_createModel_form_defined_fields_witness :
    createModel wClient wCreateModelParams
      = OpResult.request (createModelRequest wClient wCreateModelParams) ∧
    (createRequestDescriptor (createModelRequest wClient wCreateModelParams)).body =
      WireBody.form [("forced_glossary",
        { data := "GLOSS", contentType := "application/octet-stream" })] := by
  have h : createModel wClient wCreateModelParams
      = OpResult.request (createModelRequest wClient wCreateModelParams) := rfl
  refine ⟨h, ?_⟩
  have h2 := C4_createModel_form_defined_fields wClient wCreateModelParams _ h
  simpa [formPartOf, wCreateModelParams] using h2

/-- C5: for every operation, the headers of the produced request parameters
are the key-by-key merge, in increasing precedence, of (a) the client's
construction-time default headers, (b) the operation's SDK diagnostic
headers, (c) the fixed `Accept` value, (d) the fixed `Content-Type` value
where the operation has a body, and (e) the caller-supplied `params.headers`;
stated as: the lookup of any key in the final header object is the first
defined value among the layers read from the highest-precedence side.  In
particular a caller-supplied header replaces a default or diagnostic header
of the same name, and the diagnostic header is present whenever not
overridden. -/
theorem C5_header_merge_precedence (c : Client) (k : String) :
    (∀ (p : TranslateParams) (rp : RequestParameters), NodupKeys p.headers →
      translate c p = OpResult.request rp →
      lookupS rp.headers k =
        orFirst (lookupS p.headers k)
          (orFirst (lookupS [("Content-Type", "application/json")] k)
            (orFirst (lookupS [("Accept", "application/json")] k)
              (orFirst (lookupS (getSdkHeaders "language_translator" "v3" "translate") k)
                (lookupS c.defaultHeaders k))))) ∧
    (∀ (p : IdentifyParams) (rp : RequestParameters), NodupKeys p.headers →
      identify c p = OpResult.request rp →
      lookupS rp.headers k =
        orFirst (lookupS p.headers k)
          (orFirst (lookupS [("Content-Type", "text/plain")] k)
            (orFirst (lookupS [("Accept", "application/json")] k)
              (orFirst (lookupS (getSdkHeaders "language_translator" "v3" "identify") k)
                (lookupS c.defaultHeaders k))))) ∧
    (∀ (p : ListIdentifiableLanguagesParams) (rp : RequestParameters), NodupKeys p.headers →
      listIdentifiableLanguages c p = OpResult.request rp →
      lookupS rp.headers k =
        orFirst (lookupS p.headers k)
          (orFirst (lookupS [("Accept", "application/json")] k)
            (orFirst
              (lookupS (getSdkHeaders "language_translator" "v3" "listIdentifiableLanguages") k)
              (lookupS c.defaultHeaders k)))) ∧
    (∀ (p : CreateModelParams) (rp : RequestParameters), NodupKeys p.headers →
      createModel c p = OpResult.request rp →
      lookupS rp.headers k =
        orFirst (lookupS p.headers k)
          (orFirst (lookupS [("Content-Type", "multipart/form-data")] k)
            (orFirst (lookupS [("Accept", "application/json")] k)
              (orFirst (lookupS (getSdkHeaders "language_translator" "v3" "createModel") k)
                (lookupS c.defaultHeaders k))))) ∧
    (∀ (p : DeleteModelParams) (rp : RequestParameters), NodupKeys p.headers →
      deleteModel c p = OpResult.request rp →
      lookupS rp.headers k =
        orFirst (lookupS p.headers k)
          (orFirst (lookupS [("Accept", "application/json")] k)
            (orFirst (lookupS (getSdkHeaders "language_translator" "v3" "deleteModel") k)
              (lookupS c.defaultHeaders k)))) ∧
    (∀ (p : GetModelParams) (rp : RequestParameters), NodupKeys p.headers →
      getModel c p = OpResult.request rp →
      lookupS rp.headers k =
        orFirst (lookupS p.headers k)
          (orFirst (lookupS [("Accept", "application/json")] k)
            (orFirst (lookupS (getSdkHeaders "language_translator" "v3" "getModel") k)
              (lookupS c.defaultHeaders k)))) ∧
    (∀ (p : ListModelsParams) (rp : RequestParameters), NodupKeys p.headers →
      listModels c p = OpResult.request rp →
      lookupS rp.headers k =
        orFirst (lookupS p.headers k)
          (orFirst (lookupS [("Accept", "application/json")] k)
            (orFirst (lookupS (getSdkHeaders "language_translator" "v3" "listModels") k)
              (lookupS c.defaultHeaders k)))) := by
  refine ⟨?_, ?_, ?_, ?_, ?_, ?_, ?_⟩
  · intro p rp hnd hr
    rw [translate_request_eq c p rp hr]
    simp only [translateRequest, getSdkHeaders]
    exact lookup_mergedHeaders_two c _ _ _ _ p.headers hnd k
  · intro p rp hnd hr
    rw [identify_request_eq c p rp hr]
    simp only [identifyRequest, getSdkHeaders]
    exact lookup_mergedHeaders_two c _ _ _ _ p.headers hnd k
  · intro p rp hnd hr
    rw [listIdentifiableLanguages_request_eq c p rp hr]
    simp only [listIdentifiableLanguagesRequest, getSdkHeaders]
    exact lookup_mergedHeaders_one c _ _ _ p.headers hnd k
  · intro p rp hnd hr
    rw [createModel_request_eq c p rp hr]
    simp only [createModelRequest, getSdkHeaders]
    exact lookup_mergedHeaders_two c _ _ _ _ p.headers hnd k
  · intro p rp hnd hr
    rw [deleteModel_request_eq c p rp hr]
    simp only [deleteModelRequest, getSdkHeaders]
    exact lookup_mergedHeaders_one c _ _ _ p.headers hnd k
  · intro p rp hnd hr
    rw [getModel_request_eq c p rp hr]
    simp only [getModelRequest, getSdkHeaders]
    exact lookup_mergedHeaders_one c _ _ _ p.headers hnd k
  · intro p rp hnd hr
    rw [listModels_request_eq c p rp hr]
    simp only [listModelsRequest, getSdkHeaders]
    exact lookup_mergedHeaders_one c _ _ _ p.headers hnd k

/-- Witness for C5: against the concrete client (default headers carrying
`X-Watson-Learning-Opt-Out`) and translate params carrying a caller `Accept`,
the caller header overrides the fixed `Accept` and the untouched default
header survives the merge. -/
theorem C5_header_merge_precedence_witness :
    lookupS (translateRequest wClient wTranslateParams).headers "Accept"
      = some "text/html" ∧
    lookupS (translateRequest wClient wTranslateParams).headers "X-Watson-Learning-Opt-Out"
      = some "1" := by
  have h : translate wClient wTranslateParams
      = OpResult.request (translateRequest wClient wTranslateParams) := rfl
  have hnd : NodupKeys wTranslateParams.headers := by
    simp [wTranslateParams, NodupKeys]
  have h1 := (C5_header_merge_precedence wClient "Accept").1 wTranslateParams _ hnd h
  have h2 := (C5_header_merge_precedence wClient "X-Watson-Learning-Opt-Out").1
    wTranslateParams _ hnd h
  constructor
  · rw [h1]; rfl
  · rw [h2]; rfl

/-- C6: in the assembled query of a `listModels` request, the `default` entry
is the serialization of `params.default_models` exactly when that parameter
is defined (absent parameter: entry omitted; explicit `false`: literal
`false`), and `source`/`target` entries are present exactly when defined —
the present-false versus absent distinction is preserved. -/
theorem C6_listModels_query_presence (c : Client) (p : ListModelsParams)
    (rp : RequestParameters) (hr : listModels c p = OpResult.request rp) :
    lookupS (createRequestDescriptor rp).query "default"
      = p.default_models.map (fun b => if b then "true" else "false") ∧
    lookupS (createRequestDescriptor rp).query "source" = p.source ∧
    lookupS (createRequestDescriptor rp).query "target" = p.target := by
  rw [listModels_request_eq c p rp hr]
  obtain ⟨s, t, d, hh, rr⟩ := p
  cases s <;> cases t <;> cases d <;>
    refine ⟨?_, ?_, ?_⟩ <;>
      simp [createRequestDescriptor, listModelsRequest, buildQuery,
        serializeQueryValue, jsOpt, hmerge, setEntry, lookupS, List.find?,
        List.filterMap, List.foldl, List.any]

/-- Witness for C6: `listModels({source: "en", default_models: false})` sends
`default=false` literally, omits `target`, and passes `source` through. -/
theorem C6_listModels_query_presence_witness :
    listModels wClient wListModelsParams
      = OpResult.request (listModelsRequest wClient wListModelsParams) ∧
    lookupS (createRequestDescriptor (listModelsRequest wClient wListModelsParams)).query
      "default" = some "false" ∧
    lookupS (createRequestDescriptor (listModelsRequest wClient wListModelsParams)).query
      "target" = none := by
  have h : listModels wClient wListModelsParams
      = OpResult.request (listModelsRequest wClient wListModelsParams) := rfl
  have h2 := C6_listModels_query_presence wClient wListModelsParams _ h
  refine ⟨h, ?_, ?_⟩
  · rw [h2.1]; rfl
  · rw [h2.2.2]; rfl

/-- C7: for every operation, the no-callback path returns a promise that
rejects with the error when the underlying call reports an error, resolves
with the full transport response (status, headers, body) when the
`return_response` flag of the params is truthy, and otherwise resolves with
just the decoded body. -/
theorem C7_promise_resolution (c : Client) (transport : RequestParameters → CallOutcome) :
    (∀ (p : TranslateParams) (e : JsValue),
      runWith (translate c p) transport = CallOutcome.err e →
      translatePromise c p transport = PromiseResult.rejected e) ∧
    (∀ (p : TranslateParams) (b : JsValue) (r : TransportResponse),
      runWith (translate c p) transport = CallOutcome.ok b r →
      (truthy p.return_response = true →
        translatePromise c p transport = PromiseResult.resolvedResponse r) ∧
      (truthy p.return_response = false →
        translatePromise c p transport = PromiseResult.resolvedBody b)) ∧
    (∀ (p : IdentifyParams) (e : JsValue),
      runWith (identify c p) transport = CallOutcome.err e →
      identifyPromise c p transport = PromiseResult.rejected e) ∧
    (∀ (p : IdentifyParams) (b : JsValue) (r : TransportResponse),
      runWith (identify c p) transport = CallOutcome.ok b r →
      (truthy p.return_response = true →
        identifyPromise c p transport = PromiseResult.resolvedResponse r) ∧
      (truthy p.return_response = false →
        identifyPromise c p transport = PromiseResult.resolvedBody b)) ∧
    (∀ (p : ListIdentifiableLanguagesParams) (e : JsValue),
      runWith (listIdentifiableLanguages c p) transport = CallOutcome.err e →
      listIdentifiableLanguagesPromise c p transport = PromiseResult.rejected e) ∧
    (∀ (p : ListIdentifiableLanguagesParams) (b : JsValue) (r : TransportResponse),
      runWith (listIdentifiableLanguages c p) transport = CallOutcome.ok b r →
      (truthy p.return_response = true →
        listIdentifiableLanguagesPromise c p transport = PromiseResult.resolvedResponse r) ∧
      (truthy p.return_response = false →
        listIdentifiableLanguagesPromise c p transport = PromiseResult.resolvedBody b)) ∧
    (∀ (p : CreateModelParams) (e : JsValue),
      runWith (createModel c p) transport = CallOutcome.err e →
      createModelPromise c p transport = PromiseResult.rejected e) ∧
    (∀ (p : CreateModelParams) (b : JsValue) (r : TransportResponse),
      runWith (createModel c p) transport = CallOutcome.ok b r →
      (truthy p.return_response = true →
        createModelPromise c p transport = PromiseResult.resolvedResponse r) ∧
      (truthy p.return_response = false →
        createModelPromise c p transport = PromiseResult.resolvedBody b)) ∧
    (∀ (p : DeleteModelParams) (e : JsValue),
      runWith (deleteModel c p) transport = CallOutcome.err e →
      deleteModelPromise c p transport = PromiseResult.rejected e) ∧
    (∀ (p : DeleteModelParams) (b : JsValue) (r : TransportResponse),
      runWith (deleteModel c p) transport = CallOutcome.ok b r →
      (truthy p.return_response = true →
        deleteModelPromise c p transport = PromiseResult.resolvedResponse r) ∧
      (truthy p.return_response = false →
        deleteModelPromise c p transport = PromiseResult.resolvedBody b)) ∧
    (∀ (p : GetModelParams) (e : JsValue),
      runWith (getModel c p) transport = CallOutcome.err e →
      getModelPromise c p transport = PromiseResult.rejected e) ∧
    (∀ (p : GetModelParams) (b : JsValue) (r : TransportResponse),
      runWith (getModel c p) transport = CallOutcome.ok b r →
      (truthy p.return_response = true →
        getModelPromise c p transport = PromiseResult.resolvedResponse r) ∧
      (truthy p.return_response = false →
        getModelPromise c p transport = PromiseResult.resolvedBody b)) ∧
    (∀ (p : ListModelsParams) (e : JsValue),
      runWith (listModels c p) transport = CallOutcome.err e →
      listModelsPromise c p transport = PromiseResult.rejected e) ∧
    (∀ (p : ListModelsParams) (b : JsValue) (r : TransportResponse),
      runWith (listModels c p) transport = CallOutcome.ok b r →
      (truthy p.return_response = true →
        listModelsPromise c p transport = PromiseResult.resolvedResponse r) ∧
      (truthy p.return_response = false →
        listModelsPromise c p transport = PromiseResult.resolvedBody b)) := by
  refine ⟨?_, ?_, ?_, ?_, ?_, ?_, ?_, ?_, ?_, ?_, ?_, ?_, ?_, ?_⟩
  · intro p e h; unfold translatePromise; rw [h]; rfl
  · intro p b r h
    constructor <;> intro ht <;> unfold translatePromise <;> rw [h, ht] <;> rfl
  · intro p e h; unfold identifyPromise; rw [h]; rfl
  · intro p b r h
    constructor <;> intro ht <;> unfold identifyPromise <;> rw [h, ht] <;> rfl
  · intro p e h; unfold listIdentifiableLanguagesPromise; rw [h]; rfl
  · intro p b r h
    constructor <;> intro ht <;> unfold listIdentifiableLanguagesPromise <;>
      rw [h, ht] <;> rfl
  · intro p e h; unfold createModelPromise; rw [h]; rfl
  · intro p b r h
    constructor <;> intro ht <;> unfold createModelPromise <;> rw [h, ht] <;> rfl
  · intro p e h; unfold deleteModelPromise; rw [h]; rfl
  · intro p b r h
    constructor <;> intro ht <;> unfold deleteModelPromise <;> rw [h, ht] <;> rfl
  · intro p e h; unfold getModelPromise; rw [h]; rfl
  · intro p b r h
    constructor <;> intro ht <;> unfold getModelPromise <;> rw [h, ht] <;> rfl
  · intro p e h; unfold listModelsPromise; rw [h]; rfl
  · intro p b r h
    constructor <;> intro ht <;> unfold listModelsPromise <;> rw [h, ht] <;> rfl

/-- Witness for C7 at concrete inputs: a failing transport rejects the
`translate` promise with the reported error; a succeeding transport resolves
a `listModels` promise with the body by default and with the full response
when `return_response` is set. -/
theorem C7_promise_resolution_witness :
    translatePromise wClient wTranslateParams wFailTransport
      = PromiseResult.rejected (JsValue.str "boom") ∧
    listModelsPromise wClient wListModelsParams wOkTransport
      = PromiseResult.resolvedBody (JsValue.str "BODY") ∧
    listModelsPromise wClient
      { wListModelsParams with return_response := Option.some true } wOkTransport
      = PromiseResult.resolvedResponse
          { status := 200, headers := [("X-R", "1")], body := JsValue.str "BODY" } :=
  ⟨(C7_promise_resolution wClient wFailTransport).1 wTranslateParams _ rfl,
   ((C7_promise_resolution wClient wOkTransport).2.2.2.2.2.2.2.2.2.2.2.2.2
     wListModelsParams _ _ rfl).2 rfl,
   ((C7_promise_resolution wClient wOkTransport).2.2.2.2.2.2.2.2.2.2.2.2.2
     { wListModelsParams with return_response := Option.some true } _ _ rfl).1 rfl⟩

/-- C8: every operation snapshots the caller-supplied params at entry (the
synchronous phase consumes the entry value of the caller's object, so its
validation outcome and request parameters are those of the entry value), and
driving the in-flight call through an arbitrary sequence of caller mutations
of the params object — including in the promise-returning path, whose
completion closure runs only after control returned to the caller — settles
the promise at the value determined by the entry snapshot, whatever the
mutated object holds at completion time. -/
theorem C8_params_snapshot_isolation (c : Client)
    (transport : RequestParameters → CallOutcome) :
    ((∀ s : TranslateParams, (beginCall (translate c) s).result = translate c s) ∧
     (∀ (s store2 : TranslateParams) (evs : List (CallEvent TranslateParams))
        (pr : PromiseResult),
        runEvents TranslateParams.return_response (beginCall (translate c) s)
          transport evs s = Option.some (pr, store2) →
        pr = translatePromise c s transport)) ∧
    ((∀ s : IdentifyParams, (beginCall (identify c) s).result = identify c s) ∧
     (∀ (s store2 : IdentifyParams) (evs : List (CallEvent IdentifyParams))
        (pr : PromiseResult),
        runEvents IdentifyParams.return_response (beginCall (identify c) s)
          transport evs s = Option.some (pr, store2) →
        pr = identifyPromise c s transport)) ∧
    ((∀ s : ListIdentifiableLanguagesParams,
        (beginCall (listIdentifiableLanguages c) s).result = listIdentifiableLanguages c s) ∧
     (∀ (s store2 : ListIdentifiableLanguagesParams)
        (evs : List (CallEvent ListIdentifiableLanguagesParams)) (pr : PromiseResult),
        runEvents ListIdentifiableLanguagesParams.return_response
          (beginCall (listIdentifiableLanguages c) s) transport evs s
          = Option.some (pr, store2) →
        pr = listIdentifiableLanguagesPromise c s transport)) ∧
    ((∀ s : CreateModelParams, (beginCall (createModel c) s).result = createModel c s) ∧
     (∀ (s store2 : CreateModelParams) (evs : List (CallEvent CreateModelParams))
        (pr : PromiseResult),
        runEvents CreateModelParams.return_response (beginCall (createModel c) s)
          transport evs s = Option.some (pr, store2) →
        pr = createModelPromise c s transport)) ∧
    ((∀ s : DeleteModelParams, (beginCall (deleteModel c) s).result = deleteModel c s) ∧
     (∀ (s store2 : DeleteModelParams) (evs : List (CallEvent DeleteModelParams))
        (pr : PromiseResult),
        runEvents DeleteModelParams.return_response (beginCall (deleteModel c) s)
          transport evs s = Option.some (pr, store2) →
        pr = deleteModelPromise c s transport)) ∧
    ((∀ s : GetModelParams, (beginCall (getModel c) s).result = getModel c s) ∧
     (∀ (s store2 : GetModelParams) (evs : List (CallEvent GetModelParams))
        (pr : PromiseResult),
        runEvents GetModelParams.return_response (beginCall (getModel c) s)
          transport evs s = Option.some (pr, store2) →
        pr = getModelPromise c s transport)) ∧
    ((∀ s : ListModelsParams, (beginCall (listModels c) s).result = listModels c s) ∧
     (∀ (s store2 : ListModelsParams) (evs : List (CallEvent ListModelsParams))
        (pr : PromiseResult),
        runEvents ListModelsParams.return_response (beginCall (listModels c) s)
          transport evs s = Option.some (pr, store2) →
        pr = listModelsPromise c s transport)) := by
  refine ⟨⟨fun s => rfl, ?_⟩, ⟨fun s => rfl, ?_⟩, ⟨fun s => rfl, ?_⟩, ⟨fun s => rfl, ?_⟩,
    ⟨fun s => rfl, ?_⟩, ⟨fun s => rfl, ?_⟩, ⟨fun s => rfl, ?_⟩⟩ <;>
    intro s store2 evs pr h <;>
    exact runEvents_complete_eq _ _ transport s evs s store2 pr h

/-- Witness for C8: a caller that invokes `translate` with `return_response`
unset and then, mid-flight, flips `return_response` to `true` and deletes
`text` still gets the promise settled from the entry snapshot — the decoded
body, not the full response, even though the mutated object requests the
response — and the synchronous phase holds the request parameters of the
entry value. -/
theorem C8_params_snapshot_isolation_witness :
    runEvents TranslateParams.return_response
        (beginCall (translate wClient) wTranslateParams) wOkTransport
        [CallEvent.mutate wMutation, CallEvent.complete] wTranslateParams
      = Option.some (PromiseResult.resolvedBody (JsValue.str "BODY"),
          wMutation wTranslateParams) ∧
    (beginCall (translate wClient) wTranslateParams).result
      = OpResult.request (translateRequest wClient wTranslateParams) := by
  have h : runEvents TranslateParams.return_response
      (beginCall (translate wClient) wTranslateParams) wOkTransport
      [CallEvent.mutate wMutation, CallEvent.complete] wTranslateParams
    = Option.some (settle (truthy wTranslateParams.return_response)
        (runWith (translate wClient wTranslateParams) wOkTransport),
        wMutation wTranslateParams) := rfl
  have h2 := (C8_params_snapshot_isolation wClient wOkTransport).1.2
    wTranslateParams (wMutation wTranslateParams)
    [CallEvent.mutate wMutation, CallEvent.complete] _ h
  refine ⟨?_, rfl⟩
  rw [h, h2]
  rfl

/-- C9: `identify` is deterministic in its request shaping — two invocations
on the same client with identical parameters produce identical request
parameters and identical assembled descriptors, a POST to `/v3/identify`
whose body is the raw string value of `params.text`. -/
theorem C9_identify_request_deterministic (c : Client) (p : IdentifyParams)
    (rp1 rp2 : RequestParameters)
    (h1 : identify c p = OpResult.request rp1)
    (h2 : identify c p = OpResult.request rp2) :
    rp1 = rp2 ∧ createRequestDescriptor rp1 = createRequestDescriptor rp2 ∧
    rp1.url = "/v3/identify" ∧ rp1.method = Method.post ∧
    (∀ t, p.text = Option.some t → rp1.body = BodySpec.raw (JsValue.str t)) := by
  rw [identify_request_eq c p rp1 h1, identify_request_eq c p rp2 h2]
  refine ⟨rfl, rfl, rfl, rfl, ?_⟩
  intro t ht
  simp [identifyRequest, jsOpt, ht]

/-- Witness for C9 at `identify({text: "hola"})`. -/
theorem C9_identify_request_deterministic_witness :
    identify wClient wIdentifyParams
      = OpResult.request (identifyRequest wClient wIdentifyParams) ∧
    (identifyRequest wClient wIdentifyParams).url = "/v3/identify" ∧
    (identifyRequest wClient wIdentifyParams).body = BodySpec.raw (JsValue.str "hola") := by
  have h : identify wClient wIdentifyParams
      = OpResult.request (identifyRequest wClient wIdentifyParams) := rfl
  have h2 := C9_identify_request_deterministic wClient wIdentifyParams _ _ h h
  exact ⟨h, h2.2.2.1, h2.2.2.2.2 "hola" rfl⟩

/-- C10: for the two operations with no required parameters, passing a
function as the first and only argument makes that function the completion
callback with an empty params object; for the other five operations no such
overload exists — a function first argument is shallow-copied into an empty
snapshot, the second argument (absent) stays the callback, so the call takes
the promise path and rejects on validation instead of ever treating the
function as a callback. -/
theorem C10_callback_first_argument_overload (c : Client) (f : Callback) :
    listIdentifiableLanguagesEntry c (Option.some (ParamsOrCallback.func f)) Option.none
      = listIdentifiableLanguagesEntry c
          (Option.some (ParamsOrCallback.params emptyListIdentifiableLanguagesParams))
          (Option.some f) ∧
    listIdentifiableLanguagesEntry c (Option.some (ParamsOrCallback.func f)) Option.none
      = EntryResult.delivered
          (listIdentifiableLanguages c emptyListIdentifiableLanguagesParams) f ∧
    listModelsEntry c (Option.some (ParamsOrCallback.func f)) Option.none
      = listModelsEntry c (Option.some (ParamsOrCallback.params emptyListModelsParams))
          (Option.some f) ∧
    listModelsEntry c (Option.some (ParamsOrCallback.func f)) Option.none
      = EntryResult.delivered (listModels c emptyListModelsParams) f ∧
    translateEntry c (Option.some (ParamsOrCallback.func f)) Option.none
      = EntryResult.promise (OpResult.validationError ["text"]) ∧
    identifyEntry c (Option.some (ParamsOrCallback.func f)) Option.none
      = EntryResult.promise (OpResult.validationError ["text"]) ∧
    createModelEntry c (Option.some (ParamsOrCallback.func f)) Option.none
      = EntryResult.promise (OpResult.validationError ["base_model_id"]) ∧
    deleteModelEntry c (Option.some (ParamsOrCallback.func f)) Option.none
      = EntryResult.promise (OpResult.validationError ["model_id"]) ∧
    getModelEntry c (Option.some (ParamsOrCallback.func f)) Option.none
      = EntryResult.promise (OpResult.validationError ["model_id"]) := by
  exact ⟨rfl, rfl, rfl, rfl, rfl, rfl, rfl, rfl, rfl⟩
